import Mathlib

/-!
Shallow embedding of `cirq_google/devices/xmon_device.py` (plus the pieces of
the host framework it delegates to, modelled from the specification where the
host code is not part of the sources): the `XmonDevice` grid-topology
validator with its adjacency queries, duration lookup, gate allowlist,
per-operation validation, pairwise interaction-exclusion check for moments,
placement decision, and circuit-wide measurement-key uniqueness check.

Python `ValueError`s become `Except XmonError` results, with one error
constructor per distinct failure condition named in the specification.
Durations (`cirq.Duration`) are modelled as integers (picoseconds);
`cirq.Duration()` is `0`.
-/

/-- A grid qubit, identified by integer row and column
(host framework value type `cirq.GridQubit`). -/
structure GridQubit where
  row : Int
  col : Int
deriving DecidableEq, Repr

/-- Modelled from the spec: the host framework's `GridQubit.is_adjacent`
(`is_adjacent(a, b)`: true iff Manhattan distance between a and b equals
exactly 1). -/
def GridQubit.is_adjacent (a b : GridQubit) : Bool :=
  (a.row - b.row).natAbs + (a.col - b.col).natAbs == 1

/-- The gate types the source discriminates between with `isinstance` checks.
`other` stands for any gate outside the six named classes. -/
inductive Gate where
  | czPow
  | xPow
  | yPow
  | phasedXPow
  | measurement (key : String)
  | zPow
  | other
deriving DecidableEq, Repr

/-- Embeds `isinstance(gate, cirq.MeasurementGate)`. -/
def Gate.isMeasurementGate : Gate → Bool
  | .measurement _ => true
  | _ => false

/-- A qubit value carried by an operation: either a `GridQubit` or some
other qubit type (`other`), which `validate_operation` rejects. -/
inductive Qubit where
  | grid (g : GridQubit)
  | other
deriving DecidableEq, Repr

/-- Adjacency as invoked on operation sites
(`cast(cirq.GridQubit, q).is_adjacent(p)`). Every call site in the source
reaches this only after both sites were validated to be `GridQubit`s;
a non-grid site is mapped to `false`. -/
def Qubit.adj : Qubit → Qubit → Bool
  | .grid a, .grid b => a.is_adjacent b
  | _, _ => false

/-- An operation: a `cirq.GateOperation` (a gate applied to a qubit list) or
some other operation type (`other`, e.g. a composite operation), which
`validate_operation` rejects. A non-gate operation still acts on qubits. -/
inductive Operation where
  | gateOp (gate : Gate) (qubits : List Qubit)
  | other (qubits : List Qubit)
deriving DecidableEq, Repr

/-- Embeds `operation.gate`: the gate of a gate operation, `none` otherwise
(Python returns `None`, and every `isinstance(None, ...)` test is false). -/
def Operation.gate : Operation → Option Gate
  | .gateOp g _ => some g
  | .other _ => none

/-- Embeds `operation.qubits`. -/
def Operation.qubits : Operation → List Qubit
  | .gateOp _ qs => qs
  | .other qs => qs

/-- Embeds `cirq.measurement_key(op)` for measurement operations, `none` for
operations that are not measurements (`cirq.is_measurement(op)` false). -/
def Operation.measurement_key : Operation → Option String
  | .gateOp (.measurement k) _ => some k
  | _ => none

/-- A moment: a collection of operations proposed for one time step
(host framework container `cirq.Moment`; its operations tuple is kept as a
list, list position standing for Python object identity). -/
structure Moment where
  operations : List Operation
deriving DecidableEq, Repr

/-- Modelled from the spec: the host framework's `Moment.operates_on`,
the basis of the generic no-overlap check — true iff some given qubit is
acted on by some operation of the moment. -/
def Moment.operates_on (m : Moment) (qs : List Qubit) : Bool :=
  m.operations.any fun op => op.qubits.any fun q => qs.contains q

/-- A circuit: an ordered sequence of moments (`cirq.Circuit`). -/
structure Circuit where
  moments : List Moment
deriving DecidableEq, Repr

/-- Embeds `circuit.all_operations()`: every operation, in moment order and, within
a moment, in the moment's operation order. -/
def Circuit.all_operations (c : Circuit) : List Operation :=
  (c.moments.map Moment.operations).flatten

/-- The distinct failure conditions of the validators (each a Python
`ValueError` with the corresponding message). -/
inductive XmonError where
  | unsupportedOperation
  | unsupportedGate
  | unsupportedQubitType
  | qubitNotOnDevice
  | nonLocalInteraction
  | adjacentInteraction
  | duplicateMeasurementKey (key : String)
deriving DecidableEq, Repr

/-- Embeds `XmonDevice`: three durations and a frozen set of qubits.
`__init__` freezes the supplied qubit iterable into a set, so the structure
field is a `Finset`. -/
structure XmonDevice where
  measurement_duration : Int
  exp_w_duration : Int
  exp_z_duration : Int
  qubits : Finset GridQubit
deriving DecidableEq

/-- Embeds `XmonDevice.__init__` from a list of qubits: the list collapses to a set. -/
def XmonDevice.ofList (md wd zd : Int) (qs : List GridQubit) : XmonDevice :=
  { measurement_duration := md, exp_w_duration := wd, exp_z_duration := zd,
    qubits := qs.toFinset }

/-- Embeds `XmonDevice._value_equality_values_`: the tuple that the host framework's
`value_equality` decorator compares (and hashes) devices by. -/
def XmonDevice.value_equality_values (d : XmonDevice) :
    Int × Int × Int × Finset GridQubit :=
  (d.measurement_duration, d.exp_w_duration, d.exp_z_duration, d.qubits)

/-- Embeds `XmonDevice.neighbors_of`: the four grid neighbours of `qubit`
(row+1, row-1, col+1, col-1), filtered to those on the device. -/
def XmonDevice.neighbors_of (d : XmonDevice) (qubit : GridQubit) : List GridQubit :=
  [ GridQubit.mk (qubit.row + 1) qubit.col,
    GridQubit.mk (qubit.row - 1) qubit.col,
    GridQubit.mk qubit.row (qubit.col + 1),
    GridQubit.mk qubit.row (qubit.col - 1)
  ].filter fun e => e ∈ d.qubits

/-- Embeds `XmonDevice.duration_of`: duration lookup by gate type, in the source's
`isinstance`-chain order; Z gates are performed in the control software and
take zero time; any other gate type is unsupported. -/
def XmonDevice.duration_of (d : XmonDevice) (operation : Operation) :
    Except XmonError Int :=
  match operation.gate with
  | some .czPow => .ok d.exp_z_duration
  | some (.measurement _) => .ok d.measurement_duration
  | some .xPow => .ok d.exp_w_duration
  | some .yPow => .ok d.exp_w_duration
  | some .phasedXPow => .ok d.exp_w_duration
  | some .zPow => .ok 0
  | _ => .error .unsupportedGate

/-- Embeds `XmonDevice.is_supported_gate`: the gate-type allowlist. -/
def XmonDevice.is_supported_gate : Gate → Bool
  | .czPow => true
  | .xPow => true
  | .yPow => true
  | .phasedXPow => true
  | .measurement _ => true
  | .zPow => true
  | .other => false

/-- Embeds `XmonDevice.validate_gate`: error unless the gate is allowed. -/
def XmonDevice.validate_gate (g : Gate) : Except XmonError Unit :=
  if XmonDevice.is_supported_gate g then .ok () else .error .unsupportedGate

/-- The qubit loop of `validate_operation`: for each qubit in order, first the
type check, then the membership check, stopping at the first failure. -/
def XmonDevice.validate_qubits (d : XmonDevice) : List Qubit → Except XmonError Unit
  | [] => .ok ()
  | q :: rest =>
    match q with
    | .other => .error .unsupportedQubitType
    | .grid gq =>
      if gq ∈ d.qubits then d.validate_qubits rest else .error .qubitNotOnDevice

/-- Embeds the trailing check of `validate_operation`: when the operation
has exactly two qubits and its gate is not a measurement, the two qubits
must be adjacent. -/
def two_qubit_locality_check (g : Gate) (qs : List Qubit) : Except XmonError Unit :=
  match qs with
  | [p, q] =>
    if g.isMeasurementGate then .ok ()
    else if Qubit.adj p q then .ok ()
    else .error .nonLocalInteraction
  | _ => .ok ()

/-- Embeds `XmonDevice.validate_operation`: gate-operation check, then gate
allowlist, then the per-qubit checks, then locality of two-qubit
non-measurement operations. -/
def XmonDevice.validate_operation (d : XmonDevice) :
    Operation → Except XmonError Unit
  | .other _ => .error .unsupportedOperation
  | .gateOp g qs =>
    match XmonDevice.validate_gate g with
    | .error e => .error e
    | .ok _ =>
      match d.validate_qubits qs with
      | .error e => .error e
      | .ok _ => two_qubit_locality_check g qs

/-- Embeds `XmonDevice._check_if_exp11_operation_interacts`: a single-qubit,
phased-X, measurement or Z operation never conflicts; otherwise the two
operations conflict iff some site of the first is adjacent to some site of
the second. -/
def check_if_exp11_operation_interacts (exp11_op other_op : Operation) : Bool :=
  match other_op.gate with
  | some .xPow => false
  | some .yPow => false
  | some .phasedXPow => false
  | some (.measurement _) => false
  | some .zPow => false
  | _ =>
    exp11_op.qubits.any fun q => other_op.qubits.any fun p => Qubit.adj q p

/-- Embeds `XmonDevice._check_if_exp11_operation_interacts_with_any`. -/
def check_if_exp11_operation_interacts_with_any
    (exp11_op : Operation) (others : List Operation) : Bool :=
  others.any fun op => check_if_exp11_operation_interacts exp11_op op

/-- Modelled from the spec: the host framework's generic per-moment check
that `super().validate_moment` delegates to — it validates each operation of
the moment in turn (the generic structural checks delegated to the external
framework in the spec). -/
def XmonDevice.base_validate_moment_ops (d : XmonDevice) :
    List Operation → Except XmonError Unit
  | [] => .ok ()
  | op :: rest =>
    match d.validate_operation op with
    | .error e => .error e
    | .ok _ => d.base_validate_moment_ops rest

/-- The pairwise interaction-exclusion loop of `validate_moment`: for each
operation `op` (with the already-visited prefix in `before`), if `op` is a
CZ interaction, test it against every *other* operation of the moment
(`other is not op` — list position stands for object identity, so `op` is
tested against `before ++ after`, never against its own position). -/
def exclusion_loop : List Operation → List Operation → Except XmonError Unit
  | _, [] => .ok ()
  | before, op :: after =>
    if op.gate == some .czPow
        && ((before ++ after).any fun other =>
              check_if_exp11_operation_interacts op other) then
      .error .adjacentInteraction
    else exclusion_loop (before ++ [op]) after

/-- Embeds `XmonDevice.validate_moment`: the host framework's generic check
(`super().validate_moment`), then the pairwise interaction-exclusion check. -/
def XmonDevice.validate_moment (d : XmonDevice) (m : Moment) :
    Except XmonError Unit :=
  match d.base_validate_moment_ops m.operations with
  | .error e => .error e
  | .ok _ => exclusion_loop [] m.operations

/-- Modelled from the spec: the host framework's generic no-overlap
placement check that `super().can_add_operation_into_moment` performs —
the proposed operation may not act on any qubit the moment already acts on. -/
def base_can_add_operation_into_moment (operation : Operation) (m : Moment) : Bool :=
  !(m.operates_on operation.qubits)

/-- Embeds `XmonDevice.can_add_operation_into_moment`: re-validates the moment
(propagating any validation error!), then the generic no-overlap check, then
— for CZ interactions — the interaction-exclusion test against the moment's
operations. -/
def XmonDevice.can_add_operation_into_moment (d : XmonDevice)
    (operation : Operation) (m : Moment) : Except XmonError Bool :=
  match d.validate_moment m with
  | .error e => .error e
  | .ok _ =>
    if !(base_can_add_operation_into_moment operation m) then .ok false
    else if operation.gate == some .czPow then
      .ok (!(check_if_exp11_operation_interacts_with_any operation m.operations))
    else .ok true

/-- Embeds `_verify_unique_measurement_keys`, with the seen-set threaded explicitly:
scan the operations in order; for each measurement operation, fail if its key
was already seen, else record it. -/
def verify_unique_measurement_keys_from :
    List Operation → List String → Except XmonError Unit
  | [], _ => .ok ()
  | op :: rest, seen =>
    match op.measurement_key with
    | none => verify_unique_measurement_keys_from rest seen
    | some k =>
      if k ∈ seen then .error (.duplicateMeasurementKey k)
      else verify_unique_measurement_keys_from rest (k :: seen)

/-- Embeds `_verify_unique_measurement_keys(operations)` (seen starts empty). -/
def verify_unique_measurement_keys (ops : List Operation) : Except XmonError Unit :=
  verify_unique_measurement_keys_from ops []

/-- Modelled from the spec: the host framework's generic circuit check that
`super().validate_circuit` delegates to — each moment is validated in order. -/
def XmonDevice.base_validate_circuit (d : XmonDevice) :
    List Moment → Except XmonError Unit
  | [] => .ok ()
  | m :: rest =>
    match d.validate_moment m with
    | .error e => .error e
    | .ok _ => d.base_validate_circuit rest

/-- Embeds `XmonDevice.validate_circuit`: the generic check, then measurement-key
uniqueness over all operations of the circuit in sequence order. -/
def XmonDevice.validate_circuit (d : XmonDevice) (c : Circuit) :
    Except XmonError Unit :=
  match d.base_validate_circuit c.moments with
  | .error e => .error e
  | .ok _ => verify_unique_measurement_keys c.all_operations

/-! ### Concrete fixtures: the 2x2 device of the specification's examples. -/

/-- The 2x2 topology {(0,0), (0,1), (1,0), (1,1)} with arbitrary concrete
durations. -/
def device2x2 : XmonDevice :=
  XmonDevice.ofList 100 20 50
    [GridQubit.mk 0 0, GridQubit.mk 0 1, GridQubit.mk 1 0, GridQubit.mk 1 1]

/-- A CZ (two-qubit interaction) operation on two grid qubits. -/
def czOp (a b : GridQubit) : Operation :=
  .gateOp .czPow [.grid a, .grid b]

/-- An X (single-qubit rotation) operation on one grid qubit. -/
def xOp (a : GridQubit) : Operation :=
  .gateOp .xPow [.grid a]

/-- Follows the specification's wording (§4.4, step 4): a two-Coordinate
operation whose kind is not Measurement must act on adjacent sites. Part of
the spec-order reference formulation. -/
def locality_specOrder (g : Gate) (qs : List Qubit) : Except XmonError Unit :=
  if qs.length = 2 ∧ g.isMeasurementGate = false then
    match qs with
    | [p, q] =>
      if Qubit.adj p q then .ok () else .error .nonLocalInteraction
    | _ => .ok ()
  else .ok ()

/-- Follows the specification's wording (§4.4, step 3): the error a single
site contributes, if any — non-Coordinate sites first, then sites absent
from the topology. Part of the spec-order reference formulation. -/
def qubit_site_error (d : XmonDevice) (q : Qubit) : Option XmonError :=
  match q with
  | .other => some XmonError.unsupportedQubitType
  | .grid gq => if gq ∈ d.qubits then none else some XmonError.qubitNotOnDevice

/-- Follows the specification's wording for the per-site checks and the
fixed check order of `validate_operation` (§4.4), as the reference for the
error-precedence claim: (1) reject an operation that is not a simple
gate-on-sites form; (2) reject a disallowed gate kind; (3) for each site in
order, reject a non-Coordinate site, then a site not on the device, the
first failing site deciding; (4) reject a two-Coordinate non-Measurement
operation on non-adjacent sites; accept otherwise. -/
def validate_operation_specOrder (d : XmonDevice) (op : Operation) :
    Except XmonError Unit :=
  match op with
  | .other _ => .error .unsupportedOperation
  | .gateOp g qs =>
    if XmonDevice.is_supported_gate g = false then .error .unsupportedGate
    else
      match qs.findSome? (qubit_site_error d) with
      | some e => .error e
      | none => locality_specOrder g qs

/-! ## Claims -/

/-- C3: `duration_of` returns the two-qubit duration for a CZ interaction,
the measurement duration for a measurement, the single-qubit duration for
the single-qubit rotations (X, Y) and for the ordinary (non-zero)
phase-rotation variant (phased X), the zero duration for the zero-duration
phase-rotation variant (Z, performed in the control software), and fails
with the unsupported-gate error for every other gate kind (including
operations that carry no gate at all). -/
theorem claim_C3_duration_of (d : XmonDevice) (qs xqs : List Qubit) (k : String) :
    d.duration_of (.gateOp .czPow qs) = .ok d.exp_z_duration
    ∧ d.duration_of (.gateOp (.measurement k) qs) = .ok d.measurement_duration
    ∧ d.duration_of (.gateOp .xPow qs) = .ok d.exp_w_duration
    ∧ d.duration_of (.gateOp .yPow qs) = .ok d.exp_w_duration
    ∧ d.duration_of (.gateOp .phasedXPow qs) = .ok d.exp_w_duration
    ∧ d.duration_of (.gateOp .zPow qs) = .ok 0
    ∧ d.duration_of (.gateOp .other qs) = .error .unsupportedGate
    ∧ d.duration_of (.other xqs) = .error .unsupportedGate :=
  ⟨rfl, rfl, rfl, rfl, rfl, rfl, rfl, rfl⟩

/-- C5: on the 2x2 device, a moment with CZ interactions on (0,0)-(0,1) and
(1,0)-(1,1) fails the moment validation with the adjacent-interaction error,
while a moment with a single CZ interaction on (0,0)-(0,1) plus a
single-qubit operation on (1,1) validates without error. -/
theorem claim_C5_validate_moment_examples :
    device2x2.validate_moment
        (Moment.mk [czOp (GridQubit.mk 0 0) (GridQubit.mk 0 1),
                    czOp (GridQubit.mk 1 0) (GridQubit.mk 1 1)])
      = .error .adjacentInteraction
    ∧ device2x2.validate_moment
        (Moment.mk [czOp (GridQubit.mk 0 0) (GridQubit.mk 0 1),
                    xOp (GridQubit.mk 1 1)])
      = .ok () :=
  ⟨rfl, rfl⟩

/-- C6: on the 2x2 device, proposing the CZ interaction (1,0)-(1,1) into a
moment that already holds the CZ interaction (0,0)-(0,1) is answered
`false`, and proposing it into an empty moment is answered `true`. -/
theorem claim_C6_can_add_examples :
    device2x2.can_add_operation_into_moment
        (czOp (GridQubit.mk 1 0) (GridQubit.mk 1 1))
        (Moment.mk [czOp (GridQubit.mk 0 0) (GridQubit.mk 0 1)])
      = .ok false
    ∧ device2x2.can_add_operation_into_moment
        (czOp (GridQubit.mk 1 0) (GridQubit.mk 1 1))
        (Moment.mk [])
      = .ok true :=
  ⟨rfl, rfl⟩

/-- C2 (counterexample): `can_add_operation_into_moment` is *not*
raise-free on all inputs — on the 2x2 device, proposing any operation into a
moment that violates the interaction-exclusion invariant (here two adjacent
CZ interactions) propagates the adjacent-interaction error raised by the
defensive `validate_moment` call, instead of returning a boolean. -/
theorem claim_C2_counterexample :
    device2x2.can_add_operation_into_moment (xOp (GridQubit.mk 1 1))
        (Moment.mk [czOp (GridQubit.mk 0 0) (GridQubit.mk 0 1),
                    czOp (GridQubit.mk 1 0) (GridQubit.mk 1 1)])
      = .error .adjacentInteraction :=
  rfl

/-- C2 (amended): for every operation whose sites are all Coordinates and
every moment that the defensive `validate_moment` re-validation accepts,
`can_add_operation_into_moment` returns a boolean and never raises. -/
theorem claim_C2_amended (d : XmonDevice) (op : Operation) (m : Moment)
    (_hq : Qubit.other ∉ op.qubits)
    (hm : d.validate_moment m = .ok ()) :
    ∃ b : Bool, d.can_add_operation_into_moment op m = .ok b := by
  simp only [XmonDevice.can_add_operation_into_moment, hm]
  by_cases h1 : base_can_add_operation_into_moment op m
  · simp only [h1]
    by_cases h2 : op.gate == some Gate.czPow
    · exact ⟨!check_if_exp11_operation_interacts_with_any op m.operations,
        by simp [h2]⟩
    · exact ⟨true, by simp [h2]⟩
  · exact ⟨false, by simp [h1]⟩

/-- C2 (witness for the amended theorem). -/
theorem claim_C2_amended_witness :
    Qubit.other ∉ (czOp (GridQubit.mk 1 0) (GridQubit.mk 1 1)).qubits
    ∧ device2x2.validate_moment
        (Moment.mk [czOp (GridQubit.mk 0 0) (GridQubit.mk 0 1)]) = .ok ()
    ∧ ∃ b : Bool,
        device2x2.can_add_operation_into_moment
          (czOp (GridQubit.mk 1 0) (GridQubit.mk 1 1))
          (Moment.mk [czOp (GridQubit.mk 0 0) (GridQubit.mk 0 1)]) = .ok b :=
  ⟨by decide, rfl,
    claim_C2_amended device2x2 _ _ (by decide) rfl⟩

/-- C9: two devices built from the same three durations and qubit lists that
are permutations of each other are equal, and device equality is exactly
equality of the structural tuple (measurement duration, single-qubit
duration, two-qubit duration, qubit set) compared by the value-equality
machinery. -/
theorem claim_C9_device_equality :
    (∀ (md wd zd : Int) (l1 l2 : List GridQubit), l1.Perm l2 →
        XmonDevice.ofList md wd zd l1 = XmonDevice.ofList md wd zd l2)
    ∧ ∀ d1 d2 : XmonDevice,
        d1.value_equality_values = d2.value_equality_values ↔ d1 = d2 := by
  constructor
  · intro md wd zd l1 l2 h
    simp only [XmonDevice.ofList, XmonDevice.mk.injEq, true_and]
    exact List.toFinset_eq_of_perm _ _ h
  · intro d1 d2
    cases d1
    cases d2
    simp only [XmonDevice.value_equality_values, Prod.mk.injEq, XmonDevice.mk.injEq]

/-- C9 (witness): the 2x2 device built with its qubits listed in two
different orders. -/
theorem claim_C9_witness :
    ([GridQubit.mk 0 0, GridQubit.mk 0 1, GridQubit.mk 1 0].Perm
        [GridQubit.mk 1 0, GridQubit.mk 0 0, GridQubit.mk 0 1])
    ∧ XmonDevice.ofList 100 20 50
          [GridQubit.mk 0 0, GridQubit.mk 0 1, GridQubit.mk 1 0]
        = XmonDevice.ofList 100 20 50
          [GridQubit.mk 1 0, GridQubit.mk 0 0, GridQubit.mk 0 1] :=
  ⟨by decide,
    claim_C9_device_equality.1 100 20 50 _ _ (by decide)⟩

/-- Helper for C8: membership in the four-candidate list is exactly
adjacency at Manhattan distance 1. -/
theorem mem_neighbor_candidates_iff (q c : GridQubit) :
    c ∈ [GridQubit.mk (q.row + 1) q.col, GridQubit.mk (q.row - 1) q.col,
         GridQubit.mk q.row (q.col + 1), GridQubit.mk q.row (q.col - 1)]
      ↔ q.is_adjacent c = true := by
  cases q with
  | mk qr qc =>
    cases c with
    | mk cr cc =>
      simp only [GridQubit.is_adjacent, List.mem_cons, List.mem_singleton,
        GridQubit.mk.injEq, List.not_mem_nil, or_false, beq_iff_eq]
      omega

/-- C8: `neighbors_of q` is exactly the candidate list
[(row+1,col), (row-1,col), (row,col+1), (row,col-1)] filtered to membership
in the device's qubit set (fixed order, absent candidates omitted); its
members are exactly the on-device qubits adjacent to `q`; and it is always
a subset of the topology. -/
theorem claim_C8_neighbors_of (d : XmonDevice) (q : GridQubit) :
    d.neighbors_of q
      = [GridQubit.mk (q.row + 1) q.col, GridQubit.mk (q.row - 1) q.col,
         GridQubit.mk q.row (q.col + 1), GridQubit.mk q.row (q.col - 1)].filter
          (fun e => e ∈ d.qubits)
    ∧ (∀ c : GridQubit,
        c ∈ d.neighbors_of q ↔ c ∈ d.qubits ∧ q.is_adjacent c = true)
    ∧ ∀ c ∈ d.neighbors_of q, c ∈ d.qubits := by
  refine ⟨rfl, fun c => ?_, fun c hc => ?_⟩
  · rw [XmonDevice.neighbors_of, List.mem_filter, mem_neighbor_candidates_iff]
    simp [and_comm]
  · rw [XmonDevice.neighbors_of, List.mem_filter] at hc
    simpa using hc.2

/-- C8 (witness): on the 2x2 device, (1,0) is a neighbour of (0,0), hence on
the device. -/
theorem claim_C8_witness :
    GridQubit.mk 1 0 ∈ device2x2.neighbors_of (GridQubit.mk 0 0)
    ∧ GridQubit.mk 1 0 ∈ device2x2.qubits :=
  ⟨by decide,
    (claim_C8_neighbors_of device2x2 (GridQubit.mk 0 0)).2.2
      (GridQubit.mk 1 0) (by decide)⟩

/-- C1: for two CZ (two-qubit interaction) operations, the conflict
predicate is true iff some Coordinate of the first is at Manhattan distance
exactly 1 from some Coordinate of the second; and whenever the second
operation's gate is a single-qubit rotation (X, Y), a phase rotation
(phased X or Z), or a measurement, the predicate is false regardless of the
operations' sites. -/
theorem claim_C1_conflict_predicate (aqs bqs : List GridQubit) :
    (check_if_exp11_operation_interacts
        (.gateOp .czPow (aqs.map .grid)) (.gateOp .czPow (bqs.map .grid)) = true
      ↔ ∃ p ∈ aqs, ∃ q ∈ bqs,
          (p.row - q.row).natAbs + (p.col - q.col).natAbs = 1)
    ∧ ∀ (a : Operation) (g : Gate) (qs : List Qubit),
        (g = .xPow ∨ g = .yPow ∨ g = .phasedXPow
          ∨ (∃ k, g = .measurement k) ∨ g = .zPow) →
        check_if_exp11_operation_interacts a (.gateOp g qs) = false := by
  constructor
  · simp [check_if_exp11_operation_interacts, Operation.gate, Operation.qubits,
      List.any_map, List.any_eq_true, Function.comp, Qubit.adj,
      GridQubit.is_adjacent]
  · rintro a g qs (rfl | rfl | rfl | ⟨k, rfl⟩ | rfl) <;> rfl

/-- C1 (witness): the CZ interactions (0,0)-(0,1) and (1,0)-(1,1) conflict
(their site sets are disjoint but (0,0) and (1,0) are adjacent), while a CZ
interaction never conflicts with an X rotation, even on an adjacent site. -/
theorem claim_C1_witness :
    check_if_exp11_operation_interacts
        (.gateOp .czPow ([GridQubit.mk 0 0, GridQubit.mk 0 1].map .grid))
        (.gateOp .czPow ([GridQubit.mk 1 0, GridQubit.mk 1 1].map .grid)) = true
    ∧ check_if_exp11_operation_interacts
        (czOp (GridQubit.mk 0 0) (GridQubit.mk 0 1)) (xOp (GridQubit.mk 0 1))
      = false :=
  ⟨(claim_C1_conflict_predicate [GridQubit.mk 0 0, GridQubit.mk 0 1]
        [GridQubit.mk 1 0, GridQubit.mk 1 1]).1.mpr
      ⟨GridQubit.mk 0 0, by decide, GridQubit.mk 1 0, by decide, by decide⟩,
    (claim_C1_conflict_predicate [] []).2
      (czOp (GridQubit.mk 0 0) (GridQubit.mk 0 1)) .xPow
      [Qubit.grid (GridQubit.mk 0 1)] (Or.inl rfl)⟩

/-- Helper for C4: the qubit loop of the source fails with exactly the
first failing site's error of the specification's per-site formulation. -/
theorem findSome?_qubit_site_error (d : XmonDevice) (qs : List Qubit) :
    qs.findSome? (qubit_site_error d)
      = match d.validate_qubits qs with
        | .error e => some e
        | .ok _ => none := by
  induction qs with
  | nil => rfl
  | cons q rest ih =>
    cases q with
    | other => rfl
    | grid gq =>
      by_cases h : gq ∈ d.qubits
      · simpa [XmonDevice.validate_qubits, List.findSome?_cons,
          qubit_site_error, h] using ih
      · simp [XmonDevice.validate_qubits, List.findSome?_cons,
          qubit_site_error, h]

/-- Helper for C4: the source's trailing locality check equals the
specification's step-4 formulation. -/
theorem two_qubit_locality_check_eq_spec (g : Gate) (qs : List Qubit) :
    two_qubit_locality_check g qs = locality_specOrder g qs := by
  match qs with
  | [] => simp [two_qubit_locality_check, locality_specOrder]
  | [a] => simp [two_qubit_locality_check, locality_specOrder]
  | [a, b] =>
    by_cases hm : g.isMeasurementGate
    · simp [two_qubit_locality_check, locality_specOrder, hm]
    · simp [two_qubit_locality_check, locality_specOrder, hm]
  | a :: b :: c :: rest => simp [two_qubit_locality_check, locality_specOrder]

/-- C4: `validate_operation` checks exactly in the specification's fixed
order — non-gate-operation form first, then the gate allowlist, then per
site (in order) the Coordinate-type and on-device checks, then locality of
two-Coordinate non-measurement operations — raising the error of the first
violated check and nothing otherwise; in particular a two-Coordinate
measurement on arbitrary on-device sites is accepted. -/
theorem claim_C4_validate_operation_order (d : XmonDevice) :
    (∀ op : Operation, d.validate_operation op = validate_operation_specOrder d op)
    ∧ ∀ (p q : GridQubit) (k : String), p ∈ d.qubits → q ∈ d.qubits →
        d.validate_operation (.gateOp (.measurement k) [.grid p, .grid q])
          = .ok () := by
  constructor
  · intro op
    cases op with
    | other qs => rfl
    | gateOp g qs =>
      rw [XmonDevice.validate_operation, validate_operation_specOrder,
        XmonDevice.validate_gate, findSome?_qubit_site_error]
      by_cases hg : XmonDevice.is_supported_gate g
      · rw [if_pos hg, if_neg (by simp [hg])]
        cases hv : d.validate_qubits qs with
        | error e => rfl
        | ok u => cases u; exact two_qubit_locality_check_eq_spec g qs
      · rw [if_neg hg, if_pos (by simpa using hg)]
  · intro p q k hp hq
    simp [XmonDevice.validate_operation, XmonDevice.validate_gate,
      XmonDevice.is_supported_gate, XmonDevice.validate_qubits, hp, hq,
      two_qubit_locality_check, Gate.isMeasurementGate]

/-- C4 (witness): on the 2x2 device, a two-qubit measurement on the
non-adjacent sites (0,0) and (1,1) is accepted. -/
theorem claim_C4_witness :
    GridQubit.mk 0 0 ∈ device2x2.qubits
    ∧ GridQubit.mk 1 1 ∈ device2x2.qubits
    ∧ device2x2.validate_operation
        (.gateOp (.measurement "m")
          [.grid (GridQubit.mk 0 0), .grid (GridQubit.mk 1 1)]) = .ok () :=
  ⟨by decide, by decide,
    (claim_C4_validate_operation_order device2x2).2
      (GridQubit.mk 0 0) (GridQubit.mk 1 1) "m" (by decide) (by decide)⟩

/-- Helper for C10: an operation whose gate is a supported non-CZ kind is
dismissed by the conflict predicate's kind check, whatever the sites. -/
theorem interacts_eq_false_of_supported_not_cz (a other : Operation)
    (hs : other.gate.map XmonDevice.is_supported_gate = some true)
    (hg : other.gate ≠ some Gate.czPow) :
    check_if_exp11_operation_interacts a other = false := by
  cases other with
  | other qs => simp [Operation.gate] at hs
  | gateOp g qs =>
    cases g with
    | czPow => simp [Operation.gate] at hg
    | xPow => rfl
    | yPow => rfl
    | phasedXPow => rfl
    | measurement k => rfl
    | zPow => rfl
    | other => simp [Operation.gate, XmonDevice.is_supported_gate] at hs

/-- Helper for C10: the pairwise exclusion loop accepts any operation list
drawn from the supported gate kinds that holds at most one CZ interaction:
the unique CZ operation is never tested against its own list position, and
every other operation is dismissed by the kind check. -/
theorem exclusion_loop_ok_of_at_most_one_cz :
    ∀ (after before : List Operation),
      (∀ op ∈ before ++ after,
        op.gate.map XmonDevice.is_supported_gate = some true) →
      ((before ++ after).filter
          (fun op => op.gate == some Gate.czPow)).length ≤ 1 →
      exclusion_loop before after = .ok () := by
  intro after
  induction after with
  | nil => intro before _ _; rfl
  | cons op rest ih =>
    intro before hkind hcz
    have hcount :
        ((before ++ op :: rest).filter
            (fun o => o.gate == some Gate.czPow)).length
          = ((before ++ rest).filter
              (fun o => o.gate == some Gate.czPow)).length
            + (if op.gate == some Gate.czPow then 1 else 0) := by
      by_cases hop : op.gate == some Gate.czPow
      · simp [List.filter_append, List.filter_cons, hop]
        omega
      · simp [List.filter_append, List.filter_cons, hop]
    have hstep :
        (op.gate == some Gate.czPow
          && ((before ++ rest).any fun other =>
                check_if_exp11_operation_interacts op other)) = false := by
      by_cases hop : op.gate == some Gate.czPow
      · have hle : ((before ++ op :: rest).filter
            (fun o => o.gate == some Gate.czPow)).length ≤ 1 := hcz
        rw [hcount, if_pos hop] at hle
        have hzero :
            ((before ++ rest).filter
                (fun o => o.gate == some Gate.czPow)).length = 0 := by
          omega
        have hnocz : ∀ other ∈ before ++ rest,
            other.gate ≠ some Gate.czPow := by
          intro other hother hcontra
          have hmemf : other ∈ (before ++ rest).filter
              (fun o => o.gate == some Gate.czPow) :=
            List.mem_filter.mpr ⟨hother, by simp [hcontra]⟩
          rw [List.length_eq_zero] at hzero
          simp [hzero] at hmemf
        have hany : ((before ++ rest).any fun other =>
            check_if_exp11_operation_interacts op other) = false := by
          rw [List.any_eq_false]
          intro other hother
          have hmem : other ∈ before ++ op :: rest := by
            rcases List.mem_append.mp hother with h | h
            · exact List.mem_append.mpr (Or.inl h)
            · exact List.mem_append.mpr (Or.inr (List.mem_cons_of_mem _ h))
          simp [interacts_eq_false_of_supported_not_cz op other
            (hkind other hmem) (hnocz other hother)]
        rw [hany, Bool.and_false]
      · simp [hop]
    rw [exclusion_loop, if_neg (by rw [hstep]; simp)]
    have he : (before ++ [op]) ++ rest = before ++ op :: rest := by simp
    apply ih (before ++ [op])
    · rw [he]; exact hkind
    · rw [he]; exact hcz

/-- C10: for any moment whose operations all carry supported gate kinds and
that holds exactly one CZ (two-qubit interaction) operation, the
interaction-exclusion check of `validate_moment` raises nothing — the
self-pair is excluded by identity (list position) — even though the
conflict predicate applied to such a CZ operation and itself returns true
whenever its own two coordinates are mutually adjacent. -/
theorem claim_C10_self_pair_excluded (m : Moment)
    (hkind : ∀ op ∈ m.operations,
      op.gate.map XmonDevice.is_supported_gate = some true)
    (hone : (m.operations.filter
        (fun op => op.gate == some Gate.czPow)).length = 1) :
    exclusion_loop [] m.operations = .ok ()
    ∧ ∀ p q : GridQubit, p.is_adjacent q = true →
        check_if_exp11_operation_interacts (czOp p q) (czOp p q) = true := by
  constructor
  · exact exclusion_loop_ok_of_at_most_one_cz m.operations []
      (by simpa using hkind) (by simpa using Nat.le_of_eq hone)
  · intro p q hpq
    simp [czOp, check_if_exp11_operation_interacts, Operation.gate,
      Operation.qubits, Qubit.adj, hpq]

/-- C10 (witness): the moment holding the single CZ interaction
(0,0)-(0,1) plus an X rotation on (1,1) passes the exclusion check, while
the conflict predicate on that CZ operation and itself is true. -/
theorem claim_C10_witness :
    exclusion_loop []
        [czOp (GridQubit.mk 0 0) (GridQubit.mk 0 1), xOp (GridQubit.mk 1 1)]
      = .ok ()
    ∧ check_if_exp11_operation_interacts
        (czOp (GridQubit.mk 0 0) (GridQubit.mk 0 1))
        (czOp (GridQubit.mk 0 0) (GridQubit.mk 0 1)) = true :=
  ⟨(claim_C10_self_pair_excluded
      (Moment.mk [czOp (GridQubit.mk 0 0) (GridQubit.mk 0 1),
                  xOp (GridQubit.mk 1 1)])
      (by decide) (by decide)).1,
    (claim_C10_self_pair_excluded
      (Moment.mk [czOp (GridQubit.mk 0 0) (GridQubit.mk 0 1),
                  xOp (GridQubit.mk 1 1)])
      (by decide) (by decide)).2 (GridQubit.mk 0 0) (GridQubit.mk 0 1) rfl⟩

/-- Helper for C7: the key scan accepts exactly when the measurement keys in
scan order are pairwise distinct and none was already seen. -/
theorem verify_from_ok_iff (ops : List Operation) :
    ∀ seen : List String,
      verify_unique_measurement_keys_from ops seen = .ok ()
        ↔ (ops.filterMap Operation.measurement_key).Nodup
          ∧ ∀ k ∈ ops.filterMap Operation.measurement_key, k ∉ seen := by
  induction ops with
  | nil => intro seen; simp [verify_unique_measurement_keys_from]
  | cons op rest ih =>
    intro seen
    cases hk : op.measurement_key with
    | none =>
      simp only [verify_unique_measurement_keys_from, hk,
        List.filterMap_cons]
      exact ih seen
    | some k0 =>
      simp only [verify_unique_measurement_keys_from, hk,
        List.filterMap_cons]
      by_cases hs : k0 ∈ seen
      · rw [if_pos hs]
        constructor
        · intro h; exact absurd h (by simp)
        · rintro ⟨-, hall⟩
          exact absurd hs (hall k0 (List.mem_cons_self k0 _))
      · rw [if_neg hs, ih (k0 :: seen)]
        constructor
        · rintro ⟨hnd, hall⟩
          refine ⟨List.nodup_cons.mpr ⟨?_, hnd⟩, ?_⟩
          · intro hmem
            exact (hall k0 hmem) (List.mem_cons_self k0 seen)
          · intro x hx
            rcases List.mem_cons.mp hx with rfl | hx'
            · exact hs
            · exact fun hxs => hall x hx' (List.mem_cons_of_mem _ hxs)
        · rintro ⟨hnd, hall⟩
          rcases List.nodup_cons.mp hnd with ⟨hk0, hnd'⟩
          refine ⟨hnd', fun x hx hmem => ?_⟩
          rcases List.mem_cons.mp hmem with rfl | hxs
          · exact hk0 hx
          · exact hall x (List.mem_cons_of_mem _ hx) hxs

/-- Helper for C7: the key scan only ever fails with a duplicate-key error. -/
theorem verify_from_error_shape (ops : List Operation) :
    ∀ (seen : List String) (e : XmonError),
      verify_unique_measurement_keys_from ops seen = .error e →
      ∃ k, e = .duplicateMeasurementKey k := by
  induction ops with
  | nil => intro seen e h; exact absurd h (by simp [verify_unique_measurement_keys_from])
  | cons op rest ih =>
    intro seen e h
    cases hk : op.measurement_key with
    | none =>
      simp only [verify_unique_measurement_keys_from, hk] at h
      exact ih seen e h
    | some k0 =>
      simp only [verify_unique_measurement_keys_from, hk] at h
      by_cases hs : k0 ∈ seen
      · rw [if_pos hs] at h
        exact ⟨k0, by injection h with h'; exact h'.symm⟩
      · rw [if_neg hs] at h
        exact ih (k0 :: seen) e h

/-- Helper for C7: the key scan fails with key `k` exactly when, in scan
order, `k` is the first key that was already seen or already occurred. -/
theorem verify_from_error_iff (ops : List Operation) :
    ∀ (seen : List String) (k : String),
      verify_unique_measurement_keys_from ops seen
          = .error (.duplicateMeasurementKey k)
        ↔ ∃ l1 l2, ops.filterMap Operation.measurement_key = l1 ++ k :: l2
            ∧ l1.Nodup ∧ (∀ x ∈ l1, x ∉ seen) ∧ (k ∈ seen ∨ k ∈ l1) := by
  induction ops with
  | nil =>
    intro seen k
    simp [verify_unique_measurement_keys_from, eq_comm, List.append_eq_nil]
  | cons op rest ih =>
    intro seen k
    cases hk : op.measurement_key with
    | none =>
      simp only [verify_unique_measurement_keys_from, hk, List.filterMap_cons]
      exact ih seen k
    | some k0 =>
      simp only [verify_unique_measurement_keys_from, hk, List.filterMap_cons]
      by_cases hs : k0 ∈ seen
      · rw [if_pos hs]
        constructor
        · intro h
          have hkk : k0 = k := by injection h with h'; injection h' with h''
          subst hkk
          exact ⟨[], rest.filterMap Operation.measurement_key,
            by simp, by simp, by simp, Or.inl hs⟩
        · rintro ⟨l1, l2, heq, hnd, hseen, hin⟩
          cases l1 with
          | nil =>
            rw [List.nil_append] at heq
            injection heq with h1 h2
            subst h1
            rfl
          | cons x l1' =>
            rw [List.cons_append] at heq
            injection heq with h1 h2
            subst h1
            exact absurd hs (hseen k0 (List.mem_cons_self _ _))
      · rw [if_neg hs, ih (k0 :: seen) k]
        constructor
        · rintro ⟨l1', l2', heq, hnd, hseen, hin⟩
          refine ⟨k0 :: l1', l2', by rw [List.cons_append, heq], ?_, ?_, ?_⟩
          · refine List.nodup_cons.mpr ⟨?_, hnd⟩
            intro hmem
            exact hseen k0 hmem (List.mem_cons_self _ _)
          · intro x hx
            rcases List.mem_cons.mp hx with rfl | hx'
            · exact hs
            · exact fun hxs => hseen x hx' (List.mem_cons_of_mem _ hxs)
          · rcases hin with hin | hin
            · rcases List.mem_cons.mp hin with rfl | hks
              · exact Or.inr (List.mem_cons_self _ _)
              · exact Or.inl hks
            · exact Or.inr (List.mem_cons_of_mem _ hin)
        · rintro ⟨l1, l2, heq, hnd, hseen, hin⟩
          cases l1 with
          | nil =>
            rw [List.nil_append] at heq
            injection heq with h1 h2
            subst h1
            rcases hin with hks | hmem
            · exact absurd hks hs
            · exact absurd hmem (List.not_mem_nil _)
          | cons x l1' =>
            rw [List.cons_append] at heq
            injection heq with h1 h2
            subst h1
            rcases List.nodup_cons.mp hnd with ⟨hx, hnd'⟩
            refine ⟨l1', l2, h2, hnd', ?_, ?_⟩
            · intro y hy hmem
              rcases List.mem_cons.mp hmem with rfl | hys
              · exact hx hy
              · exact hseen y (List.mem_cons_of_mem _ hy) hys
            · rcases hin with hks | hkl
              · exact Or.inl (List.mem_cons_of_mem _ hks)
              · rcases List.mem_cons.mp hkl with rfl | hkl'
                · exact Or.inl (List.mem_cons_self _ _)
                · exact Or.inr hkl'

/-- C7: the measurement-key check of `validate_circuit` scans the circuit's
operations in moment order; it accepts exactly when all measurement keys are
distinct, it fails with a duplicate-measurement-key error exactly when some
key occurs in two distinct measurement operations anywhere in the circuit,
and the reported key is the first key in scan order that repeats (the keys
scanned before it are pairwise distinct and already contain it). -/
theorem claim_C7_unique_measurement_keys (c : Circuit) :
    (verify_unique_measurement_keys c.all_operations = .ok ()
      ↔ (c.all_operations.filterMap Operation.measurement_key).Nodup)
    ∧ ((∃ k, verify_unique_measurement_keys c.all_operations
          = .error (.duplicateMeasurementKey k))
        ↔ ¬ (c.all_operations.filterMap Operation.measurement_key).Nodup)
    ∧ ∀ k, verify_unique_measurement_keys c.all_operations
          = .error (.duplicateMeasurementKey k)
        ↔ ∃ l1 l2, c.all_operations.filterMap Operation.measurement_key
            = l1 ++ k :: l2 ∧ l1.Nodup ∧ k ∈ l1 := by
  have hok : verify_unique_measurement_keys c.all_operations = .ok ()
      ↔ (c.all_operations.filterMap Operation.measurement_key).Nodup := by
    rw [verify_unique_measurement_keys, verify_from_ok_iff]
    simp
  have herr : ∀ k, verify_unique_measurement_keys c.all_operations
        = .error (.duplicateMeasurementKey k)
      ↔ ∃ l1 l2, c.all_operations.filterMap Operation.measurement_key
          = l1 ++ k :: l2 ∧ l1.Nodup ∧ k ∈ l1 := by
    intro k
    rw [verify_unique_measurement_keys, verify_from_error_iff]
    simp
  refine ⟨hok, ⟨?_, ?_⟩, herr⟩
  · rintro ⟨k, hk⟩ hnd
    rcases (herr k).mp hk with ⟨l1, l2, heq, -, hmem⟩
    rw [heq] at hnd
    rcases List.nodup_append.mp hnd with ⟨-, -, hdisj⟩
    exact hdisj hmem (List.mem_cons_self _ _)
  · intro hnd
    cases hv : verify_unique_measurement_keys c.all_operations with
    | ok u =>
      cases u
      exact absurd (hok.mp hv) hnd
    | error e =>
      rcases verify_from_error_shape c.all_operations [] e hv with ⟨k, rfl⟩
      exact ⟨k, rfl⟩

/-- C7 (witness): a two-moment circuit whose two measurements share the key
"a" is rejected with that key reported, and the same circuit with distinct
keys is accepted by the key check. -/
theorem claim_C7_witness :
    verify_unique_measurement_keys
        (Circuit.mk
          [Moment.mk [Operation.gateOp (.measurement "a")
              [.grid (GridQubit.mk 0 0)]],
           Moment.mk [Operation.gateOp (.measurement "a")
              [.grid (GridQubit.mk 0 1)]]]).all_operations
      = .error (.duplicateMeasurementKey "a")
    ∧ verify_unique_measurement_keys
        (Circuit.mk
          [Moment.mk [Operation.gateOp (.measurement "a")
              [.grid (GridQubit.mk 0 0)]],
           Moment.mk [Operation.gateOp (.measurement "b")
              [.grid (GridQubit.mk 0 1)]]]).all_operations
      = .ok () :=
  ⟨(claim_C7_unique_measurement_keys _).2.2 "a" |>.mpr
      ⟨["a"], [], by simp [Circuit.all_operations, Operation.measurement_key],
        by simp, by simp⟩,
    (claim_C7_unique_measurement_keys _).1.mpr
      (by simp [Circuit.all_operations, Operation.measurement_key])⟩
